import Mathlib

/-!
Verification of the yamux zero-copy frame-header core.

The source defines a packed, network-byte-order header record
(`Header`: version, tag, flags, stream_id, length), a closed tag
enumeration (`Tag` with `TryFrom<u8>`), and a zero-copy frame view
(`Frame`) built by `Frame::parse`, which splits a byte buffer into a
header-shaped prefix (via `zerocopy::Ref::new_from_prefix`) and the
remaining body, rejecting unknown tag bytes.

We embed buffers as `List Nat` of byte values; the big-endian wrappers
`U16`/`U32` from `zerocopy::byteorder::network_endian` become structures
holding their bytes most-significant first, exactly as they sit in
memory.
-/

namespace Yamux

/-- Big-endian 16-bit field, as `zerocopy`'s network-endian `U16`:
the two raw bytes, most-significant first. -/
structure U16be where
  b0 : Nat
  b1 : Nat
deriving DecidableEq

/-- Decode the stored big-endian bytes to the host value (`U16::get`). -/
def U16be.get (x : U16be) : Nat := x.b0 * 256 + x.b1

/-- Encode a 16-bit value into big-endian bytes (`u16::into` a `U16`). -/
def U16be.ofNat (v : Nat) : U16be := ⟨v / 256 % 256, v % 256⟩

/-- Big-endian 32-bit field, as `zerocopy`'s network-endian `U32`:
the four raw bytes, most-significant first. -/
structure U32be where
  b0 : Nat
  b1 : Nat
  b2 : Nat
  b3 : Nat
deriving DecidableEq

/-- Decode the stored big-endian bytes to the host value (`U32::get`). -/
def U32be.get (x : U32be) : Nat :=
  ((x.b0 * 256 + x.b1) * 256 + x.b2) * 256 + x.b3

/-- Encode a 32-bit value into big-endian bytes (`u32::into` a `U32`). -/
def U32be.ofNat (v : Nat) : U32be :=
  ⟨v / 16777216 % 256, v / 65536 % 256, v / 256 % 256, v % 256⟩

/-- `Version(u8)`: one raw byte. -/
structure Version where
  val : Nat
deriving DecidableEq

/-- `Len(U32)`: payload length stored big-endian. -/
structure Len where
  raw : U32be
deriving DecidableEq

/-- `Len::val`: decode the stored big-endian bytes. -/
def Len.val (l : Len) : Nat := l.raw.get

/-- `StreamId(U32)`: stream identifier stored big-endian. -/
structure StreamId where
  raw : U32be
deriving DecidableEq

/-- `StreamId::new`: store a `u32` value big-endian. -/
def StreamId.new (v : Nat) : StreamId := ⟨U32be.ofNat v⟩

/-- `StreamId::val`: decode the stored big-endian bytes. -/
def StreamId.val (s : StreamId) : Nat := s.raw.get

/-- `Flags(U16)`: reserved bitfield stored big-endian. -/
structure Flags where
  raw : U16be
deriving DecidableEq

/-- The closed `Tag` enumeration. -/
inductive Tag where
  | Data
  | WindowUpdate
  | Ping
  | GoAway
deriving DecidableEq

/-- `Tag as u8`: the discriminants 0, 1, 2, 3 in declaration order. -/
def Tag.toNat : Tag → Nat
  | .Data => 0
  | .WindowUpdate => 1
  | .Ping => 2
  | .GoAway => 3

/-- `TryFrom<u8> for Tag`: 0, 1, 2, 3 map to the four variants, anything
else is rejected (the `Err(())` arm becomes `none`). -/
def Tag.tryFrom : Nat → Option Tag
  | 0 => some .Data
  | 1 => some .WindowUpdate
  | 2 => some .Ping
  | 3 => some .GoAway
  | _ => none

/-- The packed `Header<T>` record.  `PhantomData<T>` is zero-sized and
carries no bytes, so it is dropped from the embedding. -/
structure Header where
  version : Version
  tag : Nat
  flags : Flags
  stream_id : StreamId
  length : Len
deriving DecidableEq

/-- The byte image of a packed header (`AsBytes`): fields in declaration
order with no padding, multi-byte fields big-endian. -/
def Header.asBytes (h : Header) : List Nat :=
  [h.version.val, h.tag,
   h.flags.raw.b0, h.flags.raw.b1,
   h.stream_id.raw.b0, h.stream_id.raw.b1, h.stream_id.raw.b2, h.stream_id.raw.b3,
   h.length.raw.b0, h.length.raw.b1, h.length.raw.b2, h.length.raw.b3]

/-- `zerocopy::Ref::new_from_prefix` at type `Header`: when the buffer is
at least `size_of::<Header>()` bytes (the packed size, 12), overlay the
header on the first 12 bytes and return the remainder; otherwise fail. -/
def Header.overlayAt (buf : List Nat) : Option (Header × List Nat) :=
  if 12 ≤ buf.length then
    some ({ version := ⟨buf.getD 0 0⟩,
            tag := buf.getD 1 0,
            flags := ⟨⟨buf.getD 2 0, buf.getD 3 0⟩⟩,
            stream_id := ⟨⟨buf.getD 4 0, buf.getD 5 0, buf.getD 6 0, buf.getD 7 0⟩⟩,
            length := ⟨⟨buf.getD 8 0, buf.getD 9 0, buf.getD 10 0, buf.getD 11 0⟩⟩ },
          buf.drop 12)
  else none

/-- The `Frame` view: the header overlay plus the body bytes. -/
structure Frame where
  header : Header
  body : List Nat
deriving DecidableEq

/-- `Frame::parse`: overlay the header on the buffer's first bytes, keep
the rest as body, and accept only if the raw tag byte converts to `Tag`. -/
def Frame.parse (bytes : List Nat) : Option Frame :=
  match Header.overlayAt bytes with
  | none => none
  | some (header, body) =>
      if (Tag.tryFrom header.tag).isSome then
        some { header := header, body := body }
      else
        none

/-- `Frame::version`: copy the version field out of the overlay. -/
def Frame.version (f : Frame) : Version := f.header.version

/-- `Frame::length`: copy the length field out of the overlay. -/
def Frame.length (f : Frame) : Len := f.header.length

/-- `Frame::set_tag` observed at the buffer: the overlay's tag field
aliases byte 1 of the underlying buffer (offset of `tag` inside the
packed header), so the write `self.header.tag = tag as u8` replaces that
byte in place. -/
def Frame.setTagInBuf (buf : List Nat) (t : Tag) : List Nat :=
  buf.set 1 t.toNat

/-- `Header::<Data>::data`: version 0, tag `Data`, flags 0, the given
stream id and length. -/
def Header.data (id : StreamId) (len : Nat) : Header :=
  { version := ⟨0⟩,
    tag := Tag.Data.toNat,
    flags := ⟨U16be.ofNat 0⟩,
    stream_id := id,
    length := ⟨U32be.ofNat len⟩ }

/-- The 15-byte demonstration input of `main`. -/
def exBytes : List Nat :=
  [0x01, 0x02, 0x01, 0x00, 0x00, 0x00, 0x00, 0x01, 0x00, 0x00, 0x00, 0x03,
   0x01, 0x02, 0x03]

/- Helper lemmas shared by the claim theorems. -/

/-- A 16-bit value survives the big-endian encode/decode round trip. -/
theorem u16_get_ofNat (v : Nat) (h : v < 65536) : (U16be.ofNat v).get = v := by
  simp only [U16be.ofNat, U16be.get]
  omega

/-- A 32-bit value survives the big-endian encode/decode round trip. -/
theorem u32_get_ofNat (v : Nat) (h : v < 4294967296) : (U32be.ofNat v).get = v := by
  simp only [U32be.ofNat, U32be.get]
  omega

/-- Tag conversion rejects every byte value of 4 or more. -/
theorem Tag.tryFrom_eq_none (n : Nat) (h : 4 ≤ n) : Tag.tryFrom n = none := by
  obtain ⟨m, rfl⟩ : ∃ m, n = m + 4 := ⟨n - 4, by omega⟩
  rfl

/-- Parsing a buffer shorter than the 12-byte header fails. -/
theorem parse_none_of_short (buf : List Nat) (h : buf.length < 12) :
    Frame.parse buf = none := by
  simp [Frame.parse, Header.overlayAt, Nat.not_le.mpr h]

/-- A successful parse needs at least the 12 header bytes. -/
theorem length_ge_of_parse_isSome (buf : List Nat)
    (h : (Frame.parse buf).isSome = true) : 12 ≤ buf.length := by
  by_contra hc
  rw [parse_none_of_short buf (by omega)] at h
  simp at h

/-- A successful parse returns everything past the header as the body. -/
theorem body_eq_drop_of_parse (buf : List Nat) (fr : Frame)
    (h : Frame.parse buf = some fr) : fr.body = buf.drop 12 := by
  unfold Frame.parse Header.overlayAt at h
  by_cases hl : 12 ≤ buf.length
  · simp only [if_pos hl] at h
    split at h
    · cases h
      rfl
    · cases h
  · simp [if_neg hl] at h

/-- Parsing any buffer long enough for the header but whose tag byte
(offset 1) is 4 or more fails. -/
theorem parse_none_of_bad_tag (buf : List Nat) (hlen : 12 ≤ buf.length)
    (htag : 4 ≤ buf.getD 1 0) : Frame.parse buf = none := by
  have hn := Tag.tryFrom_eq_none _ htag
  simp only [List.getD_eq_getElem?_getD] at hn
  simp [Frame.parse, Header.overlayAt, if_pos hlen, hn]

/-- C1: the claim says the packed header serializes to 13 bytes; in the
code it is 1 + 1 + 2 + 4 + 4 = 12 bytes, shown here on a concrete header. -/
theorem C1_counterexample :
    ¬ ((Header.data (StreamId.new 1) 3).asBytes.length = 13) := by decide

/-- C1 (amended): the packed header serializes with fields in the exact
order version (1 byte), tag (1 byte), flags (2 bytes big-endian),
stream_id (4 bytes big-endian), length (4 bytes big-endian), and its
total byte image has length exactly 12 on every header value. -/
theorem C1_header_layout (h : Header) :
    h.asBytes.length = 12 ∧
    h.asBytes =
      [h.version.val] ++ [h.tag] ++
      [h.flags.raw.b0, h.flags.raw.b1] ++
      [h.stream_id.raw.b0, h.stream_id.raw.b1, h.stream_id.raw.b2, h.stream_id.raw.b3] ++
      [h.length.raw.b0, h.length.raw.b1, h.length.raw.b2, h.length.raw.b3] :=
  ⟨rfl, rfl⟩

/-- C2: the claim says every buffer shorter than 13 bytes fails to parse;
but a 12-byte buffer (length < 13) with a valid tag parses successfully. -/
theorem C2_counterexample :
    (Header.data (StreamId.new 1) 3).asBytes.length < 13 ∧
    (Frame.parse ((Header.data (StreamId.new 1) 3).asBytes)).isSome = true := by
  decide

/-- C2 (amended): parsing a buffer shorter than 12 bytes returns no
Frame, for every length 0..11; the precondition for producing a Frame is
a length of at least 12. -/
theorem C2_short_buffer_rejected (buf : List Nat) (h : buf.length < 12) :
    Frame.parse buf = none :=
  parse_none_of_short buf h

/-- Witness for C2 at the concrete buffer [0, 1, 2]. -/
theorem C2_short_buffer_rejected_w :
    ([0, 1, 2] : List Nat).length < 12 ∧ Frame.parse [0, 1, 2] = none :=
  ⟨by decide, C2_short_buffer_rejected [0, 1, 2] (by decide)⟩

/-- C3: for every buffer of sufficient length (at least the 12 header
bytes, which covers all 13+ byte buffers) whose tag byte is 4 or more,
parse returns no Frame at all. -/
theorem C3_bad_tag_rejected (buf : List Nat) (hlen : 12 ≤ buf.length)
    (htag : 4 ≤ buf.getD 1 0) : Frame.parse buf = none :=
  parse_none_of_bad_tag buf hlen htag

/-- Witness for C3 at a concrete 13-byte buffer with tag byte 4. -/
theorem C3_bad_tag_rejected_w :
    12 ≤ (List.replicate 13 4 : List Nat).length ∧
    4 ≤ (List.replicate 13 4 : List Nat).getD 1 0 ∧
    Frame.parse (List.replicate 13 4) = none :=
  ⟨by decide, by decide, C3_bad_tag_rejected (List.replicate 13 4) (by decide) (by decide)⟩

/-- C4: encoding a header built from any valid field values (version a
byte, any of the four tags, 16-bit flags, 32-bit stream id and length)
and parsing the bytes back yields a Frame whose accessors report exactly
the original values. -/
theorem C4_roundtrip (ver fl sid len : Nat) (t : Tag)
    (_hv : ver < 256) (hf : fl < 65536)
    (hs : sid < 4294967296) (hl : len < 4294967296) :
    (Frame.parse (Header.asBytes
        { version := ⟨ver⟩, tag := t.toNat, flags := ⟨U16be.ofNat fl⟩,
          stream_id := ⟨U32be.ofNat sid⟩, length := ⟨U32be.ofNat len⟩ })).map
      (fun fr => (fr.version.val, fr.header.tag, fr.header.flags.raw.get,
                  fr.header.stream_id.val, fr.length.val, fr.body))
      = some (ver, t.toNat, fl, sid, len, []) := by
  cases t <;>
    simp [Frame.parse, Header.overlayAt, Header.asBytes, Tag.toNat, Tag.tryFrom,
          Frame.version, Frame.length, StreamId.val, Len.val,
          u16_get_ofNat fl hf, u32_get_ofNat sid hs, u32_get_ofNat len hl]

/-- Witness for C4 at version 1, tag Ping, flags 2, stream id 7, length 5. -/
theorem C4_roundtrip_w :
    (1 : Nat) < 256 ∧ (2 : Nat) < 65536 ∧
    (7 : Nat) < 4294967296 ∧ (5 : Nat) < 4294967296 ∧
    (Frame.parse (Header.asBytes
        { version := ⟨1⟩, tag := Tag.Ping.toNat, flags := ⟨U16be.ofNat 2⟩,
          stream_id := ⟨U32be.ofNat 7⟩, length := ⟨U32be.ofNat 5⟩ })).map
      (fun fr => (fr.version.val, fr.header.tag, fr.header.flags.raw.get,
                  fr.header.stream_id.val, fr.length.val, fr.body))
      = some (1, Tag.Ping.toNat, 2, 7, 5, []) :=
  ⟨by decide, by decide, by decide, by decide,
   C4_roundtrip 1 2 7 5 Tag.Ping (by decide) (by decide) (by decide) (by decide)⟩

/-- A 13-byte buffer: a valid data-frame header followed by one body byte. -/
def buf13 : List Nat := (Header.data (StreamId.new 1) 1).asBytes ++ [99]

/-- C5: the claim says the body of a successfully parsed buffer of total
length L has length L - 13; on this 13-byte buffer the body has length 1
while L - 13 = 0. -/
theorem C5_counterexample :
    (Frame.parse buf13).map (fun fr => fr.body.length) = some 1 ∧
    buf13.length - 13 = 0 := by decide

/-- C5 (amended): for every buffer of total length L on which parse
succeeds, the Frame's body has length exactly L - 12, and the body's
first byte is the buffer's byte at offset 12. -/
theorem C5_body_aliasing (buf : List Nat) (fr : Frame)
    (h : Frame.parse buf = some fr) :
    fr.body.length = buf.length - 12 ∧ fr.body.getD 0 0 = buf.getD 12 0 := by
  have hb := body_eq_drop_of_parse buf fr h
  rw [hb]
  refine ⟨List.length_drop 12 buf, ?_⟩
  simp [List.getD_eq_getElem?_getD, List.getElem?_drop]

/-- Witness for C5 at the concrete 13-byte buffer. -/
theorem C5_body_aliasing_w :
    Frame.parse buf13 = some { header := Header.data (StreamId.new 1) 1, body := [99] } ∧
    (({ header := Header.data (StreamId.new 1) 1, body := [99] } : Frame).body.length
        = buf13.length - 12 ∧
     ({ header := Header.data (StreamId.new 1) 1, body := [99] } : Frame).body.getD 0 0
        = buf13.getD 12 0) :=
  ⟨by decide, C5_body_aliasing buf13 _ (by decide)⟩

/-- C6: the 15-byte demonstration input parses into a Frame with
version 1, tag byte 2 (which converts to Ping), stream id 1 (big-endian
bytes 00 00 00 01 at offsets 4-7), length 3 (big-endian bytes
00 00 00 03 at offsets 8-11) and body 01 02 03. -/
theorem C6_example_end_to_end :
    (Frame.parse exBytes).map
      (fun fr => (fr.version.val, fr.header.tag, fr.header.stream_id.val,
                  fr.length.val, fr.body))
      = some (1, 2, 1, 3, [1, 2, 3]) ∧
    Tag.tryFrom 2 = some Tag.Ping ∧
    (exBytes.drop 4).take 4 = [0, 0, 0, 1] ∧
    (exBytes.drop 8).take 4 = [0, 0, 0, 3] := by decide

/-- C7: for every stream id and 32-bit payload length, `Header::data`
produces version 0, tag Data (discriminant 0), flags 0, the given stream
id and the given length; it is total, so it succeeds on all inputs. -/
theorem C7_header_data_fields (id : StreamId) (len : Nat)
    (h : len < 4294967296) :
    (Header.data id len).version.val = 0 ∧
    (Header.data id len).tag = Tag.Data.toNat ∧
    Tag.Data.toNat = 0 ∧
    (Header.data id len).flags.raw.get = 0 ∧
    (Header.data id len).stream_id = id ∧
    (Header.data id len).length.val = len := by
  refine ⟨rfl, rfl, rfl, ?_, rfl, ?_⟩
  · simp [Header.data, U16be.ofNat, U16be.get]
  · simpa [Header.data, Len.val] using u32_get_ofNat len h

/-- Witness for C7 at stream id 9, length 5. -/
theorem C7_header_data_fields_w :
    (5 : Nat) < 4294967296 ∧
    ((Header.data (StreamId.new 9) 5).version.val = 0 ∧
     (Header.data (StreamId.new 9) 5).tag = Tag.Data.toNat ∧
     Tag.Data.toNat = 0 ∧
     (Header.data (StreamId.new 9) 5).flags.raw.get = 0 ∧
     (Header.data (StreamId.new 9) 5).stream_id = StreamId.new 9 ∧
     (Header.data (StreamId.new 9) 5).length.val = 5) :=
  ⟨by decide, C7_header_data_fields (StreamId.new 9) 5 (by decide)⟩

/-- C8: on any buffer holding a parsed Frame (so parse succeeds on it),
writing a tag through the overlay replaces exactly byte 1 of the buffer
with the tag's discriminant — the bytes before and after it are the
original buffer's own bytes, the buffer length is unchanged, and
re-reading byte 1 of the buffer independently of the Frame shows the new
discriminant. -/
theorem C8_set_tag_in_place (buf : List Nat) (t : Tag)
    (h : (Frame.parse buf).isSome = true) :
    Frame.setTagInBuf buf t = buf.take 1 ++ t.toNat :: buf.drop 2 ∧
    (Frame.setTagInBuf buf t).getD 1 0 = t.toNat ∧
    (Frame.setTagInBuf buf t).length = buf.length := by
  have hlen : 12 ≤ buf.length := length_ge_of_parse_isSome buf h
  have h1 : 1 < buf.length := by omega
  refine ⟨List.set_eq_take_cons_drop _ h1, ?_, List.length_set buf 1 _⟩
  simp [Frame.setTagInBuf, List.getD_eq_getElem?_getD, List.getElem?_set_self h1]

/-- Witness for C8: setting GoAway on the demonstration buffer. -/
theorem C8_set_tag_in_place_w :
    (Frame.parse exBytes).isSome = true ∧
    (Frame.setTagInBuf exBytes Tag.GoAway
        = exBytes.take 1 ++ Tag.GoAway.toNat :: exBytes.drop 2 ∧
     (Frame.setTagInBuf exBytes Tag.GoAway).getD 1 0 = Tag.GoAway.toNat ∧
     (Frame.setTagInBuf exBytes Tag.GoAway).length = exBytes.length) :=
  ⟨by decide, C8_set_tag_in_place exBytes Tag.GoAway (by decide)⟩

/-- A buffer too short for the header. -/
def shortBuf : List Nat := [0, 0, 0, 0, 0]

/-- A 13-byte buffer whose tag byte is the invalid value 4. -/
def badTagBuf : List Nat := [0, 4, 0, 0, 0, 0, 0, 0, 0, 0, 0, 0, 0]

/-- C9: the claim says parse's result lets a caller tell "insufficient
data" apart from "invalid tag"; but a short buffer and an
invalid-tag buffer produce the very same result value (`none`), so the
result alone cannot distinguish them. -/
theorem C9_counterexample :
    shortBuf.length < 12 ∧
    12 ≤ badTagBuf.length ∧ 4 ≤ badTagBuf.getD 1 0 ∧
    Frame.parse shortBuf = Frame.parse badTagBuf := by decide

/-- C9 (amended): parse collapses both failure cases to the same result:
for every buffer shorter than the header and every sufficiently long
buffer with an invalid tag byte, the results of parse are identical, so
the result type does not preserve the distinction. -/
theorem C9_failures_indistinguishable (b1 b2 : List Nat)
    (h1 : b1.length < 12) (h2 : 12 ≤ b2.length) (h3 : 4 ≤ b2.getD 1 0) :
    Frame.parse b1 = Frame.parse b2 := by
  rw [parse_none_of_short b1 h1, parse_none_of_bad_tag b2 h2 h3]

/-- Witness for C9 at the empty buffer and a 12-byte tag-9 buffer. -/
theorem C9_failures_indistinguishable_w :
    ([] : List Nat).length < 12 ∧
    12 ≤ (List.replicate 12 9 : List Nat).length ∧
    4 ≤ (List.replicate 12 9 : List Nat).getD 1 0 ∧
    Frame.parse [] = Frame.parse (List.replicate 12 9) :=
  ⟨by decide, by decide, by decide,
   C9_failures_indistinguishable [] (List.replicate 12 9) (by decide) (by decide) (by decide)⟩

/-- C10: for every 32-bit value v, `StreamId::new(v).val() = v`, and a
`Len` built from v by the big-endian conversion satisfies `val() = v`:
the big-endian encode/decode pair on the 4-byte fields is the identity. -/
theorem C10_field_roundtrip (v : Nat) (h : v < 4294967296) :
    (StreamId.new v).val = v ∧ (Len.mk (U32be.ofNat v)).val = v :=
  ⟨by simpa [StreamId.new, StreamId.val] using u32_get_ofNat v h,
   by simpa [Len.val] using u32_get_ofNat v h⟩

/-- Witness for C10 at the largest 32-bit value. -/
theorem C10_field_roundtrip_w :
    (4294967295 : Nat) < 4294967296 ∧
    ((StreamId.new 4294967295).val = 4294967295 ∧
     (Len.mk (U32be.ofNat 4294967295)).val = 4294967295) :=
  ⟨by decide, C10_field_roundtrip 4294967295 (by decide)⟩

end Yamux
